/-
  Verification of the staged-upgrade resolution and update-lifecycle logic of
  the ha-tasmota-fwupdate integration (custom_components/tasmota_beta/update.py,
  with the tasmota_fw_test variant modelled where a claim cites it).

  Shallow embedding conventions:
  * Python strings are Lean `String`; optional values (`None`) are `Option`.
  * Python truthiness of an optional string (`if not x:`) is `truthyStr`.
  * `datetime` instants are `Nat` seconds; `UPDATE_TIMEOUT` (5 minutes) is 300.
  * Fallible calls return `Option`; the surrounding `try/except` of the source
    is the `none` branch.
  * `packaging.version.Version` values are lists of release components
    (`List Nat`); comparison pads the shorter list with zeros, exactly the
    PEP 440 ordering of plain release versions.
-/
import Mathlib

set_option linter.unnecessarySeqFocus false
set_option linter.unnecessarySimpa false

/-- Char-level whitespace strip on both ends, modelling Python `str.strip()`
and the `\s*` padding of the PEP 440 regex (ASCII/unicode-basic whitespace). -/
def stripWs (cs : List Char) : List Char :=
  ((cs.dropWhile Char.isWhitespace).reverse.dropWhile Char.isWhitespace).reverse

/-- Split a character list at each '.', modelling Python `str.split(".")`. -/
def splitDot : List Char → List (List Char)
  | [] => [[]]
  | c :: t =>
    if c = '.' then [] :: splitDot t
    else
      match splitDot t with
      | h :: r => (c :: h) :: r
      | [] => [[c]]

/-- One dotted chunk of a release segment: nonempty, all ASCII digits,
read as a decimal number (`int` in Python). -/
def chunkNat (cs : List Char) : Option Nat :=
  if cs ≠ [] ∧ cs.all (fun c => c.isDigit) then
    some (cs.foldl (fun n c => 10 * n + (c.toNat - 48)) 0)
  else none

/-- Models the `packaging.version.Version` constructor (PEP 440) restricted to
the plain-release grammar exercised by this integration: optional surrounding
whitespace, one optional leading `v`/`V`, then a dotted run of decimal
numerals.  Every other PEP 440 form (epoch, pre/post/dev, local) is treated as
unparseable; no value produced by this integration's call sites uses them.
Returns the release components, e.g. "v14.3.0" ↦ [14, 3, 0].
`dropV` removes the optional prefix; `chunksNat` demands every dotted chunk be
a decimal numeral. -/
def dropV : List Char → List Char
  | [] => []
  | c :: rest => if c = 'v' ∨ c = 'V' then rest else c :: rest

def chunksNat : List (List Char) → Option (List Nat)
  | [] => some []
  | c :: t =>
    match chunkNat c, chunksNat t with
    | some n, some ns => some (n :: ns)
    | _, _ => none

def pyVersion (s : String) : Option (List Nat) :=
  chunksNat (splitDot (dropV (stripWs s.toList)))

/-- PEP 440 ordering on release component lists: compare componentwise,
padding the shorter list with zeros (so [5,14] = [5,14,0]).  This is exactly
how `packaging` compares two plain release versions. -/
def vcmp : List Nat → List Nat → Ordering
  | [], bs => if bs.all (fun b => b = 0) then Ordering.eq else Ordering.lt
  | a :: as, [] => if (a :: as).all (fun x => x = 0) then Ordering.eq else Ordering.gt
  | a :: as, b :: bs =>
    if a < b then Ordering.lt
    else if b < a then Ordering.gt
    else vcmp as bs

/-- `str(Version(...))` for a plain release version: dotted decimal rendering. -/
def verStr (v : List Nat) : String :=
  String.intercalate "." (v.map Nat.repr)

/-- Does a character belong to the class `[\d.]` of the source regex
(ASCII digits; Tasmota version strings are ASCII)? -/
def digitDot (c : Char) : Bool := c.isDigit || c = '.'

/-- `_parse_installed_version` (update.py:122-128): strip suffixes such as
"(tasmota)" by keeping the leading `[\d.]+` run; empty input stays empty; when
the regex does not match (first char outside the class) the RAW STRING is
returned unchanged. -/
def _parse_installed_version (version_str : String) : String :=
  if version_str = "" then ""
  else
    let run := version_str.toList.takeWhile digitDot
    if run = [] then version_str else String.mk run

/-- The parse pipeline applied to a raw device-reported version before staged
resolution: `_parse_installed_version`, then the falsiness check and
`Version(...)` constructor of `_get_next_upgrade_target` (update.py:218-227)
with `InvalidVersion` caught (the `none` branch). -/
def versionParsePipeline (raw : String) : Option (List Nat) :=
  let cleaned := _parse_installed_version raw
  if cleaned = "" then none else pyVersion cleaned

/-- `UPGRADE_STEPS` (update.py:43-51): (threshold, firmware URL); `none` URL
means manual upgrade required. -/
def UPGRADE_STEPS : List (List Nat × Option String) :=
  [([3, 9, 0], none),
   ([4, 0, 0], none),
   ([5, 14, 0], some "http://ota.tasmota.com/tasmota/release_5.14.0/sonoff.bin"),
   ([6, 7, 1], some "http://ota.tasmota.com/tasmota/release_6.7.1/sonoff.bin"),
   ([7, 2, 0], some "http://ota.tasmota.com/tasmota/release-7.2.0/tasmota.bin"),
   ([8, 5, 1], some "http://ota.tasmota.com/tasmota/release-8.5.1/tasmota.bin"),
   ([9, 1, 0], some "http://ota.tasmota.com/tasmota/release-9.1.0/tasmota.bin.gz")]

/-- `LATEST_URL` (update.py:52). -/
def LATEST_URL : String := "http://ota.tasmota.com/tasmota/release/tasmota.bin.gz"

/-- `UPDATE_TIMEOUT` (update.py:38): 5 minutes, in seconds. -/
def UPDATE_TIMEOUT : Nat := 300

/-- Python truthiness of an optional string: `None` and `""` are falsy. -/
def truthyStr : Option String → Bool
  | none => false
  | some s => decide (s ≠ "")

/-- The `for target_version, url in UPGRADE_STEPS` loop of
`_get_next_upgrade_target` (update.py:229-231): first step whose threshold is
strictly above `current`. -/
def scanSteps (current : List Nat) : List (List Nat × Option String) → Option (List Nat × Option String)
  | [] => none
  | (t, u) :: rest =>
    if vcmp current t = Ordering.lt then some (t, u) else scanSteps current rest

/-- `TasmotaUpdateEntity._get_next_upgrade_target` (update.py:212-234), as a
function of the entity's `_attr_installed_version` and `_attr_latest_version`.
Falsy installed version or `InvalidVersion` yield `(none, none)`. -/
def _get_next_upgrade_target (installed latest : Option String) : Option String × Option String :=
  if truthyStr installed = false then (none, none)
  else
    match pyVersion (installed.getD "") with
    | none => (none, none)
    | some current =>
      match scanSteps current UPGRADE_STEPS with
      | some (t, u) => (some (verStr t), u)
      | none => (latest, some LATEST_URL)

/-- The per-entity mutable state of `TasmotaUpdateEntity` (update.py:193-210)
that the lifecycle claims touch, plus `avail`, the underlying transport
availability tracked by the `TasmotaAvailability` base class (what
`super().available` reads and `super().availability_updated` writes). -/
structure EntityState where
  installed : Option String
  latest : Option String
  inProgress : Bool
  versionBefore : Option String
  suppress : Bool
  started : Option Nat
  avail : Bool
deriving DecidableEq

/-- The session cleanup performed identically by the timeout, completed and
same-version branches of `_on_state_callback` (update.py:343-346, 357-360,
367-370). -/
def sessionReset (st : EntityState) : EntityState :=
  { st with inProgress := false, suppress := false, versionBefore := none, started := none }

/-- Which log-visible event a status report produced: the timeout warning, the
"update completed" info, or the "device back online, same version" debug. -/
inductive UpdateEvent
  | timedOut
  | completed
  | settledSame
deriving DecidableEq

/-- First block of `_on_state_callback` (update.py:337-346): opportunistic
timeout detection.  `datetime` objects are always truthy, so
`self._update_started` truthiness is `started ≠ none`. -/
def timeoutCheck (st : EntityState) (now : Nat) : EntityState × Option UpdateEvent :=
  if st.inProgress then
    match st.started with
    | some t0 =>
      if t0 + UPDATE_TIMEOUT < now then (sessionReset st, some UpdateEvent.timedOut)
      else (st, none)
    | none => (st, none)
  else (st, none)

/-- Second block of `_on_state_callback` (update.py:348-370): completion /
same-version settling, keyed on the parsed new version's truthiness. -/
def completionCheck (st : EntityState) (newVersion : String) : EntityState × Option UpdateEvent :=
  if st.inProgress then
    if newVersion ≠ "" ∧ some newVersion ≠ st.versionBefore then
      (sessionReset st, some UpdateEvent.completed)
    else if newVersion ≠ "" then (sessionReset st, some UpdateEvent.settledSame)
    else (st, none)
  else (st, none)

/-- `TasmotaUpdateEntity._on_state_callback` (update.py:332-373): timeout
check, then completion check on the possibly already reset state, then the
unconditional `self._attr_installed_version = new_version`. -/
def _on_state_callback (st : EntityState) (now : Nat) (version : String) : EntityState × Option UpdateEvent :=
  let newVersion := _parse_installed_version version
  let r1 := timeoutCheck st now
  let r2 := completionCheck r1.1 newVersion
  ({ r2.1 with installed := some newVersion },
   match r1.2 with
   | some e => some e
   | none => r2.2)

/-- Outcome of an install request: the manual-upgrade early return
(update.py:382-389), or the `update_firmware(url)` publish (update.py:413),
which either succeeds or raises out of `async_install` (no try/except there). -/
inductive InstallOutcome
  | rejected
  | published (url : Option String)
  | publishFailed (url : Option String)
deriving DecidableEq

/-- `TasmotaUpdateEntity.async_install` (update.py:375-417).  The session
fields are assigned BEFORE the publish; a publish failure (`publishOk = false`)
leaves them assigned — the source has no rollback handler. -/
def async_install (st : EntityState) (now : Nat) (publishOk : Bool) : EntityState × InstallOutcome :=
  let r := _get_next_upgrade_target st.installed st.latest
  if r.2 = none ∧ truthyStr r.1 = true then (st, InstallOutcome.rejected)
  else
    let st' : EntityState :=
      { st with
        versionBefore := st.installed
        inProgress := true
        suppress := true
        started := some now }
    if publishOk then (st', InstallOutcome.published r.2)
    else (st', InstallOutcome.publishFailed r.2)

/-- `TasmotaUpdateEntity.availability_updated` (update.py:266-274): suppressed
updates are swallowed, otherwise the base class records the new availability. -/
def availability_updated (st : EntityState) (available : Bool) : EntityState :=
  if st.suppress then st else { st with avail := available }

/-- The `available` property (update.py:258-264): forced available while an
update is in progress. -/
def available (st : EntityState) : Bool :=
  if st.inProgress then true else st.avail

/-- The `latest_version` property (update.py:236-248): shows the next staged
hop when it differs from the cached latest release. -/
def latest_version (st : EntityState) : Option String :=
  if truthyStr st.installed = false then st.latest
  else
    let nt := (_get_next_upgrade_target st.installed st.latest).1
    if truthyStr nt = true ∧ nt ≠ st.latest then nt else st.latest

/-- `_on_release_update` (update.py:323-330), restricted to the field the
claims read (the cached latest release version fan-out). -/
def _on_release_update (st : EntityState) (v : Option String) : EntityState :=
  { st with latest := v }

/-- Entity state after `__init__` (update.py:193-210); the underlying
transport availability starts false until the first availability message. -/
def initEntity (latest : Option String) : EntityState :=
  { installed := none, latest := latest, inProgress := false, versionBefore := none,
    suppress := false, started := none, avail := false }

/-- The states a `TasmotaUpdateEntity` can actually be in: the initial state
and everything reachable through its callbacks and install requests. -/
inductive Reachable : EntityState → Prop
  | init (latest : Option String) : Reachable (initEntity latest)
  | stateCb {st : EntityState} (h : Reachable st) (now : Nat) (v : String) :
      Reachable (_on_state_callback st now v).1
  | install {st : EntityState} (h : Reachable st) (now : Nat) (ok : Bool) :
      Reachable (async_install st now ok).1
  | availUpd {st : EntityState} (h : Reachable st) (b : Bool) :
      Reachable (availability_updated st b)
  | releaseUpd {st : EntityState} (h : Reachable st) (v : Option String) :
      Reachable (_on_release_update st v)

/-- The `tasmota_fw_test/update.py` variant of `async_install` (lines
151-161): it only tracks `_attr_in_progress`, sets it `True`, and its
`except` handler resets it to `False` when the MQTT publish raises.
Returns the resulting `_attr_in_progress`. -/
def fwTest_async_install (publishOk : Bool) : Bool :=
  if publishOk then true else false

/-- The JSON payload fields read from the GitHub latest-release response
(update.py:78-86); `none` models a missing key, read via `dict.get` defaults. -/
structure GithubPayload where
  tag_name : Option String
  html_url : Option String
  body : Option String
deriving DecidableEq

/-- The observable outcome of the HTTP fetch in `_fetch_latest_release`
(update.py:69-118): the three caught exception classes, or a response with a
status code and either a parsed JSON object or a body whose `.json()` raises
(caught by the blanket `except Exception`). -/
inductive HttpOutcome
  | timeout
  | clientError
  | otherError
  | response (status : Nat) (payload : Option GithubPayload)
deriving DecidableEq

/-- The dict returned by `_fetch_latest_release` on success
(update.py:103-108). -/
structure ReleaseInfoFields where
  version : String
  release_url : String
  release_notes : String
  release_summary : String
deriving DecidableEq

/-- The module-global `_release_cache` (update.py:55-61). -/
structure ReleaseCache where
  version : Option String
  release_url : Option String
  release_summary : Option String
  release_notes : Option String
  last_check : Option Nat
deriving DecidableEq

/-- `GITHUB_RELEASE_PAGE` (update.py:36), the `html_url` fallback. -/
def GITHUB_RELEASE_PAGE : String := "https://github.com/arendst/Tasmota/releases/latest"

/-- Python `notes.split("\n\n")[0]`: the prefix before the first blank-line
paragraph break. -/
def firstPara : List Char → List Char
  | [] => []
  | '\n' :: '\n' :: _ => []
  | c :: rest => c :: firstPara rest

/-- Summary generation of `_fetch_latest_release` (update.py:89-95): first
paragraph, truncated to 250 chars plus "..." when longer, then all `#`, `*`
and backquote characters removed, then stripped. -/
def mkSummary (release_notes : String) : String :=
  if release_notes = "" then ""
  else
    let first_para := firstPara release_notes.toList
    let s := if first_para.length > 250 then first_para.take 250 ++ ['.', '.', '.'] else first_para
    let s := s.filter (fun c => !(c = '#' ∨ c = '*' ∨ c = Char.ofNat 96))
    String.mk (stripWs s)

/-- `_fetch_latest_release` (update.py:64-119) as a function of the HTTP
outcome: any timeout, client error, unexpected exception, non-200 status or
malformed JSON yields `none` (the source logs and returns `None`); a 200
response with a JSON object is parsed into the release-info dict, with the
`v` prefix stripped off the tag by `lstrip("v")` (all leading `v`s). -/
def _fetch_latest_release (w : HttpOutcome) : Option ReleaseInfoFields :=
  match w with
  | HttpOutcome.timeout => none
  | HttpOutcome.clientError => none
  | HttpOutcome.otherError => none
  | HttpOutcome.response status payload =>
    if status = 200 then
      match payload with
      | none => none
      | some d =>
        let tag := d.tag_name.getD ""
        let version := String.mk (tag.toList.dropWhile (fun c => c = 'v'))
        let release_notes := d.body.getD ""
        some { version := version,
               release_url := d.html_url.getD GITHUB_RELEASE_PAGE,
               release_notes := release_notes,
               release_summary := mkSummary release_notes }
    else none

/-- `_refresh_latest_release` (update.py:138-147): on a successful fetch the
cache is replaced wholesale (`_release_cache.update(release_info)`) and
`last_check` is set to the invocation's `_now` argument; on a `None` fetch
result the cache is left untouched.  The function is total: no failure
propagates to cache readers. -/
def _refresh_latest_release (cache : ReleaseCache) (w : HttpOutcome) (now : Option Nat) : ReleaseCache :=
  match _fetch_latest_release w with
  | none => cache
  | some info =>
    { version := some info.version, release_url := some info.release_url,
      release_summary := some info.release_summary, release_notes := some info.release_notes,
      last_check := now }

/-! ### Helper lemmas: order facts about `vcmp` and the upgrade table -/

theorem vcmp_nil_right_ne_lt (v : List Nat) : vcmp v [] ≠ Ordering.lt := by
  cases v with
  | nil => simp [vcmp]
  | cons a t => simp only [vcmp]; split <;> simp

/-- `vcmp v [p,q,r] = lt` is lexicographic comparison of the first three
(zero-padded) components of `v` against `(p,q,r)`. -/
theorem vcmp_lt_iff_triple (v : List Nat) (p q r : Nat) :
    vcmp v [p, q, r] = Ordering.lt ↔
      (v.getD 0 0 < p ∨ (v.getD 0 0 = p ∧
        (v.getD 1 0 < q ∨ (v.getD 1 0 = q ∧ v.getD 2 0 < r)))) := by
  match v with
  | [] =>
    simp only [vcmp, List.all_cons, List.all_nil, List.getD]
    split_ifs with h <;> simp_all <;> omega
  | [a] =>
    simp only [vcmp, List.all_cons, List.all_nil, List.getD]
    split_ifs with h1 h2 h3 <;> simp_all <;> omega
  | [a, b] =>
    simp only [vcmp, List.all_cons, List.all_nil, List.getD]
    split_ifs with h1 h2 h3 h4 h5 <;> simp_all <;> omega
  | a :: b :: c :: rest =>
    have hr := vcmp_nil_right_ne_lt rest
    simp only [vcmp, List.getD]
    split_ifs with h1 h2 h3 h4 h5 h6 <;> simp_all <;> omega

/-- Monotonicity of `vcmp · = lt` in a length-3 right argument: enlarging the
threshold (lexicographically) preserves strict-below. -/
theorem vcmp_lt_mono {p q r p' q' r' : Nat}
    (h : p < p' ∨ (p = p' ∧ (q < q' ∨ (q = q' ∧ r ≤ r'))))
    (v : List Nat) (hv : vcmp v [p, q, r] = Ordering.lt) :
    vcmp v [p', q', r'] = Ordering.lt := by
  rw [vcmp_lt_iff_triple] at hv ⊢
  omega

theorem scanSteps_eq_find (v : List Nat) :
    ∀ steps, scanSteps v steps = steps.find? (fun s => decide (vcmp v s.1 = Ordering.lt))
  | [] => rfl
  | (t, u) :: rest => by
    by_cases h : vcmp v t = Ordering.lt
    · simp [scanSteps, List.find?, h]
    · simp [scanSteps, List.find?, h, scanSteps_eq_find v rest]

/-- Below 4.0.0 the scan stops at one of the two manual (URL-less) steps. -/
theorem scanSteps_table_low {v : List Nat} (h2 : vcmp v [4, 0, 0] = Ordering.lt) :
    scanSteps v UPGRADE_STEPS = some ([3, 9, 0], none) ∨
      scanSteps v UPGRADE_STEPS = some ([4, 0, 0], none) := by
  by_cases h1 : vcmp v [3, 9, 0] = Ordering.lt
  · left
    simp [UPGRADE_STEPS, scanSteps, h1]
  · right
    simp [UPGRADE_STEPS, scanSteps, h1, h2]

/-- At or above 4.0.0, any step the scan finds carries a URL. -/
theorem scanSteps_url_some {v : List Nat} (h2 : ¬ vcmp v [4, 0, 0] = Ordering.lt) :
    ∀ t u, scanSteps v UPGRADE_STEPS = some (t, u) → u ≠ none := by
  have h1 : ¬ vcmp v [3, 9, 0] = Ordering.lt := fun h =>
    h2 (vcmp_lt_mono (Or.inl (by norm_num)) v h)
  intro t u hscan
  simp only [UPGRADE_STEPS, scanSteps, h1, h2, if_neg, if_false] at hscan
  split_ifs at hscan <;>
    (simp only [Option.some.injEq, Prod.mk.injEq] at hscan
     obtain ⟨ht, hu⟩ := hscan
     subst hu
     simp)

/-- At or above 9.1.0 no table threshold exceeds the installed version. -/
theorem scanSteps_table_none {v : List Nat} (h7 : ¬ vcmp v [9, 1, 0] = Ordering.lt) :
    scanSteps v UPGRADE_STEPS = none := by
  have h6 : ¬ vcmp v [8, 5, 1] = Ordering.lt := fun h =>
    h7 (vcmp_lt_mono (Or.inl (by norm_num)) v h)
  have h5 : ¬ vcmp v [7, 2, 0] = Ordering.lt := fun h =>
    h6 (vcmp_lt_mono (Or.inl (by norm_num)) v h)
  have h4 : ¬ vcmp v [6, 7, 1] = Ordering.lt := fun h =>
    h5 (vcmp_lt_mono (Or.inl (by norm_num)) v h)
  have h3 : ¬ vcmp v [5, 14, 0] = Ordering.lt := fun h =>
    h4 (vcmp_lt_mono (Or.inl (by norm_num)) v h)
  have h2 : ¬ vcmp v [4, 0, 0] = Ordering.lt := fun h =>
    h3 (vcmp_lt_mono (Or.inl (by norm_num)) v h)
  have h1 : ¬ vcmp v [3, 9, 0] = Ordering.lt := fun h =>
    h2 (vcmp_lt_mono (Or.inl (by norm_num)) v h)
  simp [UPGRADE_STEPS, scanSteps, h1, h2, h3, h4, h5, h6, h7]

/-- In [5.14.0, 6.7.1) the scan finds the 6.7.1 step with its fixed URL. -/
theorem scanSteps_interval {v : List Nat}
    (h3 : ¬ vcmp v [5, 14, 0] = Ordering.lt) (h4 : vcmp v [6, 7, 1] = Ordering.lt) :
    scanSteps v UPGRADE_STEPS =
      some ([6, 7, 1], some "http://ota.tasmota.com/tasmota/release_6.7.1/sonoff.bin") := by
  have h2 : ¬ vcmp v [4, 0, 0] = Ordering.lt := fun h =>
    h3 (vcmp_lt_mono (Or.inl (by norm_num)) v h)
  have h1 : ¬ vcmp v [3, 9, 0] = Ordering.lt := fun h =>
    h2 (vcmp_lt_mono (Or.inl (by norm_num)) v h)
  simp [UPGRADE_STEPS, scanSteps, h1, h2, h3, h4]

theorem pyVersion_empty : pyVersion "" = none := by decide

/-! ### Helper lemmas: character membership and unparseable strings -/

theorem mem_of_mem_takeWhile {p : Char → Bool} :
    ∀ {l : List Char} {c : Char}, c ∈ l.takeWhile p → c ∈ l := by
  intro l
  induction l with
  | nil => intro c h; simpa using h
  | cons a t ih =>
    intro c h
    by_cases hp : p a
    · rw [List.takeWhile_cons_of_pos hp] at h
      rcases List.mem_cons.mp h with h | h
      · exact h ▸ List.mem_cons_self a t
      · exact List.mem_cons_of_mem a (ih h)
    · rw [List.takeWhile_cons_of_neg hp] at h
      simp at h

theorem mem_of_mem_dropWhile {p : Char → Bool} :
    ∀ {l : List Char} {c : Char}, c ∈ l.dropWhile p → c ∈ l := by
  intro l
  induction l with
  | nil => intro c h; simpa using h
  | cons a t ih =>
    intro c h
    by_cases hp : p a
    · rw [List.dropWhile_cons_of_pos hp] at h
      exact List.mem_cons_of_mem a (ih h)
    · rwa [List.dropWhile_cons_of_neg hp] at h

theorem mem_of_mem_stripWs {l : List Char} {c : Char} (h : c ∈ stripWs l) : c ∈ l := by
  unfold stripWs at h
  rw [List.mem_reverse] at h
  have h := mem_of_mem_dropWhile h
  rw [List.mem_reverse] at h
  exact mem_of_mem_dropWhile h

theorem splitDot_ne_nil : ∀ cs : List Char, splitDot cs ≠ [] := by
  intro cs
  induction cs with
  | nil => simp [splitDot]
  | cons c t ih =>
    simp only [splitDot]
    split_ifs
    · simp
    · cases hs : splitDot t <;> simp

/-- Every character of the first chunk of `splitDot cs` is a character of `cs`. -/
theorem splitDot_head_subset :
    ∀ cs : List Char, ∀ c ∈ (splitDot cs).headD [], c ∈ cs := by
  intro cs
  induction cs with
  | nil => intro c h; simpa [splitDot] using h
  | cons a t ih =>
    intro c h
    simp only [splitDot] at h
    split_ifs at h
    · simp at h
    · rcases hs : splitDot t with _ | ⟨hd, tl⟩
      · exact absurd hs (splitDot_ne_nil t)
      · rw [hs] at h
        simp only [List.headD_cons] at h
        rcases List.mem_cons.mp h with h | h
        · exact h ▸ List.mem_cons_self a t
        · refine List.mem_cons_of_mem a (ih c ?_)
          rw [hs]
          simpa using h

theorem mem_of_mem_dropV {l : List Char} {c : Char} (h : c ∈ dropV l) : c ∈ l := by
  cases l with
  | nil => simpa [dropV] using h
  | cons a rest =>
    simp only [dropV] at h
    split_ifs at h
    · exact List.mem_cons_of_mem a h
    · exact h

/-- A string without any ASCII digit cannot satisfy the (restricted) PEP 440
grammar: its first dotted chunk is empty or contains a non-digit. -/
theorem pyVersion_no_digit {s : String} (h : ∀ c ∈ s.toList, c.isDigit = false) :
    pyVersion s = none := by
  unfold pyVersion
  have hnd1 : ∀ c ∈ dropV (stripWs s.toList), c.isDigit = false := fun c hc =>
    h c (mem_of_mem_stripWs (mem_of_mem_dropV hc))
  rcases hsp : splitDot (dropV (stripWs s.toList)) with _ | ⟨h0, t0⟩
  · exact absurd hsp (splitDot_ne_nil _)
  · have hchunk : chunkNat h0 = none := by
      unfold chunkNat
      rcases hh0 : h0 with _ | ⟨c, cc⟩
      · simp
      · have hc : c.isDigit = false := by
          refine hnd1 c (splitDot_head_subset _ c ?_)
          rw [hsp, hh0]
          simp
        simp [hc]
    simp [chunksNat, hchunk]

/-! ### Helper lemmas: the availability-suppression invariant -/

/-- Everywhere the source touches `_suppress_availability_updates` it also
sets `_update_in_progress` to the same value (update.py:343-344, 357-358,
367-368, 400-401), so the two flags agree in every reachable entity state. -/
theorem reachable_suppress_eq {st : EntityState} (h : Reachable st) :
    st.suppress = st.inProgress := by
  induction h with
  | init latest => rfl
  | @stateCb st' h now v ih =>
    obtain ⟨inst, lat, prog, vb, sup, strt, av⟩ := st'
    simp only [_on_state_callback, timeoutCheck, completionCheck, sessionReset] at *
    cases strt <;> split_ifs <;> simp_all <;> split_ifs <;> simp_all
  | @install st' h now ok ih =>
    simp only [async_install]
    split_ifs <;> simp_all
  | @availUpd st' h b ih =>
    obtain ⟨inst, lat, prog, vb, sup, strt, av⟩ := st'
    simp only [availability_updated] at *
    split_ifs <;> simp_all
  | @releaseUpd st' h v ih => simpa [_on_release_update] using ih

/-! ### Claim theorems -/

/-- C2: for every parseable installed version and any latest version,
`_get_next_upgrade_target` returns the first `UPGRADE_STEPS` entry whose
threshold is strictly greater than the installed version, with that entry's
URL; the URL is absent exactly when the installed version is below 4.0.0; when
no threshold exceeds the installed version (at or above 9.1.0) it returns the
latest version with the generic `LATEST_URL`; and for every installed version
in [5.14.0, 6.7.1) the result is target 6.7.1 with its fixed URL, regardless
of latest. -/
theorem nextTarget_staged_resolution (s : String) (v : List Nat) (latest : Option String)
    (hpv : pyVersion s = some v) :
    (_get_next_upgrade_target (some s) latest =
      match UPGRADE_STEPS.find? (fun p => decide (vcmp v p.1 = Ordering.lt)) with
      | some (t, u) => (some (verStr t), u)
      | none => (latest, some LATEST_URL)) ∧
    ((_get_next_upgrade_target (some s) latest).2 = none ↔ vcmp v [4, 0, 0] = Ordering.lt) ∧
    (vcmp v [9, 1, 0] ≠ Ordering.lt →
      _get_next_upgrade_target (some s) latest = (latest, some LATEST_URL)) ∧
    (vcmp v [5, 14, 0] ≠ Ordering.lt → vcmp v [6, 7, 1] = Ordering.lt →
      _get_next_upgrade_target (some s) latest =
        (some "6.7.1", some "http://ota.tasmota.com/tasmota/release_6.7.1/sonoff.bin")) := by
  have hs : s ≠ "" := by
    intro he
    rw [he, pyVersion_empty] at hpv
    exact Option.noConfusion hpv
  have ht : truthyStr (some s) = true := by simp [truthyStr, hs]
  have hg : _get_next_upgrade_target (some s) latest =
      (match scanSteps v UPGRADE_STEPS with
       | some (t, u) => (some (verStr t), u)
       | none => (latest, some LATEST_URL)) := by
    simp [_get_next_upgrade_target, ht, hpv]
  refine ⟨?_, ?_, ?_, ?_⟩
  · rw [hg, scanSteps_eq_find]
  · rw [hg]
    by_cases h2 : vcmp v [4, 0, 0] = Ordering.lt
    · rcases scanSteps_table_low h2 with h | h <;> rw [h] <;> simp [h2]
    · cases hscan : scanSteps v UPGRADE_STEPS with
      | none => simp [h2]
      | some p =>
        obtain ⟨t, u⟩ := p
        have hu := scanSteps_url_some h2 t u hscan
        simp [hu, h2]
  · intro h7
    rw [hg, scanSteps_table_none h7]
  · intro h3 h4
    rw [hg, scanSteps_interval h3 h4]
    have hv671 : verStr [6, 7, 1] = "6.7.1" := by decide
    simp [hv671]

theorem nextTarget_staged_resolution_witness :
    pyVersion "6.0.0" = some [6, 0, 0] ∧
    _get_next_upgrade_target (some "6.0.0") (some "14.3.0") =
      (some "6.7.1", some "http://ota.tasmota.com/tasmota/release_6.7.1/sonoff.bin") :=
  ⟨by decide,
   (nextTarget_staged_resolution "6.0.0" [6, 0, 0] (some "14.3.0") (by decide)).2.2.2
     (by decide) (by decide)⟩

/-- C3 counterexample: with the installed version absent,
`_get_next_upgrade_target` returns the empty no-target result `(none, none)`,
not the latest version with the latest-release URL as the claim states. -/
theorem nextTarget_no_baseline_cex :
    _get_next_upgrade_target none (some "14.3.0") = (none, none) ∧
    _get_next_upgrade_target none (some "14.3.0") ≠ (some "14.3.0", some LATEST_URL) := by
  decide

/-- C3 amended: when the installed version is absent the resolver returns the
empty result `(none, none)`; the fall-back to the cached latest release
happens one level up, in the `latest_version` property, which short-circuits
to the cached latest without consulting the resolver. -/
theorem nextTarget_no_baseline_amended :
    (∀ latest : Option String, _get_next_upgrade_target none latest = (none, none)) ∧
    (∀ st : EntityState, st.installed = none → latest_version st = st.latest) := by
  constructor
  · intro latest
    rfl
  · intro st h
    simp [latest_version, h, truthyStr]

theorem nextTarget_no_baseline_amended_witness :
    latest_version (initEntity (some "14.3.0")) = (initEntity (some "14.3.0")).latest :=
  nextTarget_no_baseline_amended.2 (initEntity (some "14.3.0")) rfl

/-- C6: when install is requested and the resolved target is
manual-upgrade-only (installed version below the 4.0.0 boundary, e.g. 2.0.0),
`async_install` rejects synchronously: the state is unchanged (no session
fields set, `inProgress` keeps its value) and the outcome is `rejected` — no
upgrade message is published. -/
theorem install_rejected_manual_only (st : EntityState) (now : Nat) (ok : Bool)
    (s : String) (v : List Nat)
    (hi : st.installed = some s) (hpv : pyVersion s = some v)
    (h2 : vcmp v [4, 0, 0] = Ordering.lt) :
    async_install st now ok = (st, InstallOutcome.rejected) := by
  have hs : s ≠ "" := by
    intro he
    rw [he, pyVersion_empty] at hpv
    exact Option.noConfusion hpv
  have ht : truthyStr (some s) = true := by simp [truthyStr, hs]
  rcases scanSteps_table_low h2 with h | h
  · have hr : _get_next_upgrade_target st.installed st.latest = (some (verStr [3, 9, 0]), none) := by
      simp [_get_next_upgrade_target, hi, ht, hpv, h]
    have htr : truthyStr (some (verStr [3, 9, 0])) = true := by decide
    simp [async_install, hr, htr]
  · have hr : _get_next_upgrade_target st.installed st.latest = (some (verStr [4, 0, 0]), none) := by
      simp [_get_next_upgrade_target, hi, ht, hpv, h]
    have htr : truthyStr (some (verStr [4, 0, 0])) = true := by decide
    simp [async_install, hr, htr]

theorem install_rejected_manual_only_witness :
    async_install
      { installed := some "2.0.0", latest := some "14.3.0", inProgress := false,
        versionBefore := none, suppress := false, started := none, avail := true }
      0 true =
      ({ installed := some "2.0.0", latest := some "14.3.0", inProgress := false,
         versionBefore := none, suppress := false, started := none, avail := true },
       InstallOutcome.rejected) :=
  install_rejected_manual_only _ 0 true "2.0.0" [2, 0, 0] rfl (by decide) (by decide)

/-- C9: the displayed `latest_version` equals the resolved next hop whenever
that hop differs from the cached latest release; it equals the cached latest
when there is no installed version, when the resolver's target coincides with
the cached latest, or when the resolver yields no target. -/
theorem displayed_latest_is_next_hop (st : EntityState) :
    (∀ t u, truthyStr st.installed = true →
      _get_next_upgrade_target st.installed st.latest = (some t, u) →
      t ≠ "" → some t ≠ st.latest → latest_version st = some t) ∧
    (truthyStr st.installed = false → latest_version st = st.latest) ∧
    (truthyStr st.installed = true →
      (_get_next_upgrade_target st.installed st.latest).1 = st.latest →
      latest_version st = st.latest) ∧
    (truthyStr st.installed = true →
      (_get_next_upgrade_target st.installed st.latest).1 = none →
      latest_version st = st.latest) := by
  refine ⟨?_, ?_, ?_, ?_⟩
  · intro t u hti hg hne hl
    have htt : truthyStr (some t) = true := by simp [truthyStr, hne]
    simp only [latest_version, hti, hg]
    simp [htt, hl]
  · intro hti
    simp [latest_version, hti]
  · intro hti heq
    simp [latest_version, hti, heq]
  · intro hti heq
    simp [latest_version, hti, heq, truthyStr]

theorem displayed_latest_is_next_hop_witness :
    latest_version
      { installed := some "5.14.0", latest := some "14.3.0", inProgress := false,
        versionBefore := none, suppress := false, started := none, avail := true } =
      some "6.7.1" :=
  (displayed_latest_is_next_hop _).1 "6.7.1"
    (some "http://ota.tasmota.com/tasmota/release_6.7.1/sonoff.bin")
    (by decide) (by decide) (by decide) (by decide)

/-- C10: when install is requested with an absent or unparseable installed
version (the resolver yields `(none, none)`), the install is NOT rejected: a
session is created (`inProgress` and `suppress` set, `started := now`,
`versionBefore` recording the raw installed value) and the upgrade command is
issued with no explicit firmware URL (the device's default OTA pointer). -/
theorem install_without_baseline_default_ota (st : EntityState) (now : Nat) (ok : Bool)
    (h : truthyStr st.installed = false ∨ pyVersion (st.installed.getD "") = none) :
    async_install st now ok =
      ({ st with
          versionBefore := st.installed
          inProgress := true
          suppress := true
          started := some now },
       if ok then InstallOutcome.published none else InstallOutcome.publishFailed none) := by
  have hr : _get_next_upgrade_target st.installed st.latest = (none, none) := by
    by_cases ht : truthyStr st.installed = false
    · simp [_get_next_upgrade_target, ht]
    · rcases h with h | h
      · exact absurd h ht
      · simp [_get_next_upgrade_target, ht, h]
  cases ok <;> simp [async_install, hr, truthyStr]

theorem install_without_baseline_default_ota_witness :
    async_install (initEntity (some "14.3.0")) 7 true =
      ({ initEntity (some "14.3.0") with
          versionBefore := none
          inProgress := true
          suppress := true
          started := some 7 },
       InstallOutcome.published none) := by
  have h := install_without_baseline_default_ota (initEntity (some "14.3.0")) 7 true
    (Or.inl rfl)
  simpa using h

/-- C1 (amended): for every status report received while a session is in
progress, with `startedAt` set: if more than 5 minutes elapsed the session
times out and resets to Idle (timeout takes precedence over the completion
check, whatever the reported version); otherwise a NON-EMPTY parsed version
that differs from `versionBeforeUpdate` completes the session with the same
cleanup; otherwise a NON-EMPTY parsed version equal to `versionBeforeUpdate`
settles the session back to Idle without declaring success; and an EMPTY
parsed version leaves the session running (only the installed version is
updated) — the original claim's equal-version arm omitted the non-emptiness
condition. -/
theorem state_report_session_resolution (st : EntityState) (t0 now : Nat) (v : String)
    (hip : st.inProgress = true) (hst : st.started = some t0) :
    (t0 + UPDATE_TIMEOUT < now →
      _on_state_callback st now v =
        ({ sessionReset st with installed := some (_parse_installed_version v) },
         some UpdateEvent.timedOut)) ∧
    (¬ t0 + UPDATE_TIMEOUT < now → _parse_installed_version v ≠ "" →
      some (_parse_installed_version v) ≠ st.versionBefore →
      _on_state_callback st now v =
        ({ sessionReset st with installed := some (_parse_installed_version v) },
         some UpdateEvent.completed)) ∧
    (¬ t0 + UPDATE_TIMEOUT < now → _parse_installed_version v ≠ "" →
      some (_parse_installed_version v) = st.versionBefore →
      _on_state_callback st now v =
        ({ sessionReset st with installed := some (_parse_installed_version v) },
         some UpdateEvent.settledSame)) ∧
    (¬ t0 + UPDATE_TIMEOUT < now → _parse_installed_version v = "" →
      _on_state_callback st now v =
        ({ st with installed := some (_parse_installed_version v) }, none)) := by
  refine ⟨?_, ?_, ?_, ?_⟩
  · intro htime
    simp [_on_state_callback, timeoutCheck, completionCheck, sessionReset, hip, hst, htime]
  · intro htime hne hdiff
    simp [_on_state_callback, timeoutCheck, completionCheck, sessionReset, hip, hst, htime,
      hne, hdiff]
  · intro htime hne heq
    simp [_on_state_callback, timeoutCheck, completionCheck, sessionReset, hip, hst, htime,
      hne, heq]
  · intro htime hemp
    simp [_on_state_callback, timeoutCheck, completionCheck, hip, hst, htime, hemp]

theorem state_report_session_resolution_witness :
    _on_state_callback
      { installed := some "12.0.0", latest := some "14.3.0", inProgress := true,
        versionBefore := some "12.0.0", suppress := true, started := some 0, avail := true }
      400 "12.1.0(tasmota)" =
      ({ sessionReset
          { installed := some "12.0.0", latest := some "14.3.0", inProgress := true,
            versionBefore := some "12.0.0", suppress := true, started := some 0, avail := true }
          with installed := some (_parse_installed_version "12.1.0(tasmota)") },
       some UpdateEvent.timedOut) :=
  (state_report_session_resolution _ 0 400 "12.1.0(tasmota)" rfl rfl).1 (by decide)

/-- C1 counterexample: a session whose `versionBeforeUpdate` is the empty
string (reachable: an empty status report makes `installed = some ""`, and
install is not rejected from that state).  A later in-window report whose
parsed version is `""` EQUALS `versionBeforeUpdate`, yet the session does not
reset to Idle as the claim requires: `inProgress` stays true and no event is
logged. -/
theorem state_report_empty_version_cex :
    (async_install ((_on_state_callback (initEntity (some "14.3.0")) 0 "").1) 0 true).1.versionBefore
        = some "" ∧
    _parse_installed_version "" = "" ∧
    (async_install ((_on_state_callback (initEntity (some "14.3.0")) 0 "").1) 0 true).1.inProgress
        = true ∧
    (_on_state_callback
        ((async_install ((_on_state_callback (initEntity (some "14.3.0")) 0 "").1) 0 true).1)
        60 "").1.inProgress = true ∧
    (_on_state_callback
        ((async_install ((_on_state_callback (initEntity (some "14.3.0")) 0 "").1) 0 true).1)
        60 "").2 = none := by
  decide

/-- C5: the claim (and spec §7) requires a publish failure during install to
roll the `Installing` transition back to Idle.  The `tasmota_beta`
`async_install` has no try/except around `update_firmware`: after a failed
publish the session fields remain set (`inProgress`, `suppress`,
`versionBefore`, `started`), i.e. no rollback happens; the `tasmota_fw_test`
variant by contrast does reset its only flag in its `except` handler. -/
theorem install_publish_failure_no_rollback :
    (async_install
        { installed := some "12.0.0", latest := some "14.3.0", inProgress := false,
          versionBefore := none, suppress := false, started := none, avail := true }
        0 false).1.inProgress = true ∧
    (async_install
        { installed := some "12.0.0", latest := some "14.3.0", inProgress := false,
          versionBefore := none, suppress := false, started := none, avail := true }
        0 false).1.suppress = true ∧
    (async_install
        { installed := some "12.0.0", latest := some "14.3.0", inProgress := false,
          versionBefore := none, suppress := false, started := none, avail := true }
        0 false).1.versionBefore = some "12.0.0" ∧
    (async_install
        { installed := some "12.0.0", latest := some "14.3.0", inProgress := false,
          versionBefore := none, suppress := false, started := none, avail := true }
        0 false).1.started = some 0 ∧
    (async_install
        { installed := some "12.0.0", latest := some "14.3.0", inProgress := false,
          versionBefore := none, suppress := false, started := none, avail := true }
        0 false).2 = InstallOutcome.publishFailed (some LATEST_URL) ∧
    fwTest_async_install false = false := by
  decide

/-- C7: in every reachable entity state with `suppressAvailability` set, an
incoming availability-changed signal (including "device offline",
`b = false`) is swallowed — the state is unchanged — and the externally
reported availability is and stays `true`. -/
theorem availability_suppressed_during_update (st : EntityState) (hr : Reachable st)
    (hs : st.suppress = true) :
    (∀ b : Bool, availability_updated st b = st ∧
      available (availability_updated st b) = true) ∧
    available st = true := by
  have hp : st.inProgress = true := (reachable_suppress_eq hr) ▸ hs
  refine ⟨fun b => ⟨?_, ?_⟩, ?_⟩
  · simp [availability_updated, hs]
  · simp [availability_updated, hs, available, hp]
  · simp [available, hp]

theorem availability_suppressed_during_update_witness :
    available ((async_install
        ((_on_state_callback (initEntity (some "14.3.0")) 0 "12.0.0(tasmota)").1) 10 true).1)
      = true := by
  have hr : Reachable ((async_install
      ((_on_state_callback (initEntity (some "14.3.0")) 0 "12.0.0(tasmota)").1) 10 true).1) :=
    Reachable.install (Reachable.stateCb (Reachable.init (some "14.3.0")) 0 "12.0.0(tasmota)")
      10 true
  exact (availability_suppressed_during_update _ hr (by decide)).2

/-- C8: a release-cache refresh leaves the cached record completely unchanged
on every failure (timeout, client error, unexpected exception, non-200
status, malformed JSON payload) — the failure is only logged and, the refresh
being a total function, nothing propagates to cache readers — and on a full
fetch success it replaces all four cached fields with the fetched values and
stamps `last_check` with the invocation's `now` argument. -/
theorem release_cache_refresh_discipline (cache : ReleaseCache) (now : Option Nat) :
    (_refresh_latest_release cache HttpOutcome.timeout now = cache) ∧
    (_refresh_latest_release cache HttpOutcome.clientError now = cache) ∧
    (_refresh_latest_release cache HttpOutcome.otherError now = cache) ∧
    (∀ (status : Nat) (payload : Option GithubPayload), status ≠ 200 →
      _refresh_latest_release cache (HttpOutcome.response status payload) now = cache) ∧
    (_refresh_latest_release cache (HttpOutcome.response 200 none) now = cache) ∧
    (∀ d : GithubPayload, ∃ info : ReleaseInfoFields,
      _fetch_latest_release (HttpOutcome.response 200 (some d)) = some info ∧
      _refresh_latest_release cache (HttpOutcome.response 200 (some d)) now =
        { version := some info.version, release_url := some info.release_url,
          release_summary := some info.release_summary,
          release_notes := some info.release_notes, last_check := now }) := by
  refine ⟨rfl, rfl, rfl, ?_, rfl, ?_⟩
  · intro status payload hs
    simp [_refresh_latest_release, _fetch_latest_release, hs]
  · intro d
    exact ⟨_, rfl, rfl⟩

theorem release_cache_refresh_discipline_witness :
    _refresh_latest_release
      { version := some "14.2.0", release_url := some "old-url",
        release_summary := some "old-summary", release_notes := some "old-notes",
        last_check := some 1 }
      (HttpOutcome.response 404 none) (some 5) =
      { version := some "14.2.0", release_url := some "old-url",
        release_summary := some "old-summary", release_notes := some "old-notes",
        last_check := some 1 } :=
  (release_cache_refresh_discipline _ (some 5)).2.2.2.1 404 none (by decide)

/-- C4 counterexample: the raw string "v14.3.0" has no leading dotted-numeric
run (its first character is outside `[\d.]`), so by the claim the parser
should return an error; instead `_parse_installed_version` passes the raw
string through unchanged and the downstream `Version()` constructor accepts
it (PEP 440 tolerates a `v` prefix), yielding the guessed version 14.3.0. -/
theorem parse_malformed_passthrough_cex :
    "v14.3.0".toList.takeWhile digitDot = [] ∧
    _parse_installed_version "v14.3.0" = "v14.3.0" ∧
    versionParsePipeline "v14.3.0" = some [14, 3, 0] := by
  decide

/-- C4 (amended): for every raw version string that is empty or contains no
digit at all, the parse pipeline returns an error (`none`) — and, being a
total function, it never raises an unhandled exception (the source catches
`InvalidVersion` at the only parse site).  A raw string with digits but no
leading dotted-numeric run, however, is passed through verbatim rather than
rejected and may still parse downstream (e.g. "v14.3.0"). -/
theorem parse_malformed_amended (raw : String)
    (h : raw = "" ∨ ∀ c ∈ raw.toList, c.isDigit = false) :
    versionParsePipeline raw = none := by
  rcases h with h | h
  · subst h
    decide
  · by_cases he : raw = ""
    · subst he
      decide
    · unfold versionParsePipeline _parse_installed_version
      rw [if_neg he]
      by_cases hr : raw.toList.takeWhile digitDot = []
      · rw [if_pos hr, if_neg he]
        exact pyVersion_no_digit h
      · rw [if_neg hr]
        have hne : String.mk (raw.toList.takeWhile digitDot) ≠ "" := by
          intro hmk
          exact hr (by simpa using congrArg String.toList hmk)
        rw [if_neg hne]
        refine pyVersion_no_digit ?_
        intro c hc
        exact h c (mem_of_mem_takeWhile (by simpa using hc))

theorem parse_malformed_amended_witness :
    versionParsePipeline "not-a-version" = none :=
  parse_malformed_amended "not-a-version" (Or.inr (by decide))

/-! ### Model validation against the spec's test vectors (§8) -/

/-- Spec §8 lifecycle scenario: session from 12.0.0; a same-version report 2
minutes later settles to Idle without a "completed" event; a changed-version
report completes; a report after more than 5 minutes times out. -/
theorem lifecycle_scenario_check :
    (let st := (async_install
        ((_on_state_callback (initEntity (some "14.3.0")) 0 "12.0.0(tasmota)").1) 10 true).1
     st.inProgress = true ∧ st.suppress = true ∧ st.versionBefore = some "12.0.0" ∧
       st.started = some 10 ∧
       (_on_state_callback st 130 "12.0.0").2 = some UpdateEvent.settledSame ∧
       (_on_state_callback st 130 "12.0.0").1.inProgress = false ∧
       (_on_state_callback st 130 "12.1.0").2 = some UpdateEvent.completed ∧
       (_on_state_callback st 400 "12.1.0").2 = some UpdateEvent.timedOut) := by
  decide

/-- Spec §8 round-trip vector: markdown markers are stripped from the release
summary, and the `v` tag prefix is stripped from the fetched version. -/
theorem release_parse_check :
    mkSummary "# Release v14.3.0\n\nMore text" = "Release v14.3.0" ∧
    _fetch_latest_release
        (HttpOutcome.response 200
          (some { tag_name := some "v14.3.0", html_url := some "u", body := some "b" })) =
      some { version := "14.3.0", release_url := "u", release_notes := "b",
             release_summary := "b" } := by
  decide
